import Mathlib

/-!
Verification of the Pareidolia Desktop orchestration core: a shallow
embedding of the filesystem project store (main.js), the Python
environment provisioner and job executor (python.js), and the express
ingestion endpoint handlers (express.js), together with theorems about
the claims of the specification.

Paths are modelled as lists of segments (path.join appends segments);
the filesystem is a list of entries (directories and files with byte
content) in directory-read order; the node fs primitives used by the
source (existsSync, statSync().isDirectory(), mkdirSync recursive,
readdirSync, writeFileSync, unlinkSync) are modelled as functions over
that state, fallible ones returning Except.  External processes are
modelled by the observable outcome of their spawn (a close event with
an exit code, or an error event), together with the accumulated stdout
and stderr text.
-/

namespace Pareidolia

/-- A filesystem path, as the list of its segments. -/
abbrev FPath := List String

/-- The kind of a filesystem entry: directory, or file with byte content. -/
inductive FKind where
  | dir : FKind
  | file (content : List Nat) : FKind
deriving DecidableEq, Repr

/-- Whether an entry kind is a directory. -/
def FKind.isDir : FKind → Bool
  | .dir => true
  | .file _ => false

/-- One filesystem entry: its absolute path and its kind. -/
structure FSEntry where
  path : FPath
  kind : FKind
deriving DecidableEq, Repr

/-- Filesystem state: the entries, in directory-read order. -/
abbrev FS := List FSEntry

/-- Well-formed filesystem: no two entries share a path. -/
def FS.wf (fs : FS) : Prop := (fs.map FSEntry.path).Nodup

instance (fs : FS) : Decidable (FS.wf fs) := by
  unfold FS.wf
  infer_instance

/-- Model of fs.existsSync. -/
def existsSync (fs : FS) (p : FPath) : Bool :=
  fs.any (fun e => e.path == p)

/-- Find the entry at a path (first match in read order). -/
def lookupEntry (fs : FS) (p : FPath) : Option FSEntry :=
  fs.find? (fun e => e.path == p)

/-- Model of fs.statSync(p).isDirectory(), false when absent. -/
def statIsDirectory (fs : FS) (p : FPath) : Bool :=
  match lookupEntry fs p with
  | some e => e.kind.isDir
  | none => false

/-- The nonempty prefixes of a path, shortest first. -/
def pathPrefixes (p : FPath) : List FPath :=
  (List.range p.length).map (fun i => p.take (i + 1))

/-- Worker for recursive mkdir: create each missing path in order,
failing when an existing entry on the way is not a directory. -/
def mkdirGo : FS → List FPath → Except String FS
  | fs, [] => Except.ok fs
  | fs, q :: qs =>
    match lookupEntry fs q with
    | some e => if e.kind.isDir then mkdirGo fs qs
                else Except.error "ENOTDIR: path component is not a directory"
    | none => mkdirGo (fs ++ [⟨q, FKind.dir⟩]) qs

/-- Model of fs.mkdirSync(p, recursive true): create every missing
ancestor and the directory itself. -/
def mkdirRecursive (fs : FS) (p : FPath) : Except String FS :=
  mkdirGo fs (pathPrefixes p)

/-- The guarded creation idiom of the source: if (not existsSync(p))
mkdirSync(p, recursive true). -/
def ensureDir (fs : FS) (p : FPath) : Except String FS :=
  if existsSync fs p then Except.ok fs else mkdirRecursive fs p

/-- The name of an entry when it is an immediate child of directory d. -/
def childName (d : FPath) (e : FSEntry) : Option String :=
  match e.path.getLast? with
  | some n => if e.path.dropLast = d then some n else none
  | none => none

/-- Model of fs.readdirSync: the names of the immediate children of a
directory, in read order; fails when the path is absent or a file. -/
def readdirSync (fs : FS) (d : FPath) : Except String (List String) :=
  match lookupEntry fs d with
  | none => Except.error "ENOENT: no such file or directory"
  | some e =>
    if e.kind.isDir then Except.ok (fs.filterMap (childName d))
    else Except.error "ENOTDIR: path component is not a directory"

/-- Model of fs.writeFileSync: requires the parent directory to exist;
overwrites an existing file, fails on an existing directory. -/
def writeFileSync (fs : FS) (p : FPath) (content : List Nat) : Except String FS :=
  if statIsDirectory fs p.dropLast then
    match lookupEntry fs p with
    | some e =>
      if e.kind.isDir then Except.error "EISDIR: illegal operation on a directory"
      else Except.ok (fs.map (fun e2 => if e2.path = p then ⟨p, FKind.file content⟩ else e2))
    | none => Except.ok (fs ++ [⟨p, FKind.file content⟩])
  else Except.error "ENOENT: no such file or directory"

/-- Model of fs.unlinkSync: remove a file, fail on a missing path or a
directory. -/
def unlinkSync (fs : FS) (p : FPath) : Except String FS :=
  match lookupEntry fs p with
  | none => Except.error "ENOENT: no such file or directory"
  | some e =>
    if e.kind.isDir then Except.error "EPERM: operation not permitted"
    else Except.ok (fs.filter (fun e2 => !(e2.path == p)))

/-- Render a path the way path.join renders it in log and argument
strings. -/
def pathToString (p : FPath) : String := String.intercalate "/" p

/-- Index of the last dot in a character list, if any. -/
def lastDotIdx : List Char → Option Nat
  | [] => none
  | c :: cs =>
    match lastDotIdx cs with
    | some i => some (i + 1)
    | none => if c = '.' then some 0 else none

/-- Model of String.prototype.toLowerCase: lower-case every character. -/
def strToLower (s : String) : String := String.mk (s.toList.map Char.toLower)

/-- Model of path.extname on a basename: the suffix from the last dot,
empty when there is no dot or the only dot starts the name. -/
def extname (s : String) : String :=
  match lastDotIdx s.toList with
  | some i => if i = 0 then "" else String.mk (s.toList.drop i)
  | none => ""

/-! ### Folder management (main.js, latest revision) -/

/-- Model of getDocumentsPath: every platform branch of the source
returns path.join(os.homedir(), Documents), so the home directory is
the only parameter. -/
def getDocumentsPath (home : FPath) : FPath := home ++ ["Documents"]

/-- Model of getPareidoliaFolderPath. -/
def getPareidoliaFolderPath (home : FPath) : FPath :=
  getDocumentsPath home ++ ["PareidoliaApp"]

/-- Model of ensurePareidoliaFolder: create the application root and
its datasets and models subdirectories when missing, returning the
root path; I/O errors propagate. -/
def ensurePareidoliaFolder (home : FPath) (fs : FS) : Except String (FPath × FS) :=
  match ensureDir fs (getPareidoliaFolderPath home) with
  | Except.error e => Except.error e
  | Except.ok fs1 =>
    match ensureDir fs1 (getPareidoliaFolderPath home ++ ["datasets"]) with
    | Except.error e => Except.error e
    | Except.ok fs2 =>
      match ensureDir fs2 (getPareidoliaFolderPath home ++ ["models"]) with
      | Except.error e => Except.error e
      | Except.ok fs3 => Except.ok (getPareidoliaFolderPath home, fs3)

/-- Model of createDatasetFolder: ensure the root, then create the
dataset folder and its positives and negatives subfolders when
missing, returning the dataset path. -/
def createDatasetFolder (home : FPath) (projectName : String) (fs : FS) :
    Except String (FPath × FS) :=
  match ensurePareidoliaFolder home fs with
  | Except.error e => Except.error e
  | Except.ok (pareidoliaPath, fs1) =>
    match ensureDir fs1 (pareidoliaPath ++ ["datasets"] ++ [projectName]) with
    | Except.error e => Except.error e
    | Except.ok fs2 =>
      match ensureDir fs2 (pareidoliaPath ++ ["datasets"] ++ [projectName] ++ ["positives"]) with
      | Except.error e => Except.error e
      | Except.ok fs3 =>
        match ensureDir fs3 (pareidoliaPath ++ ["datasets"] ++ [projectName] ++ ["negatives"]) with
        | Except.error e => Except.error e
        | Except.ok fs4 => Except.ok (pareidoliaPath ++ ["datasets"] ++ [projectName], fs4)

/-- A name and path pair, as produced by the listing functions. -/
structure DirEntry where
  name : String
  path : FPath
deriving DecidableEq, Repr

/-- Model of getDatasetsList: empty when the datasets directory does
not exist, otherwise its immediate children that are directories. -/
def getDatasetsList (home : FPath) (fs : FS) : Except String (List DirEntry) :=
  if !(existsSync fs (getPareidoliaFolderPath home ++ ["datasets"])) then Except.ok []
  else
    match readdirSync fs (getPareidoliaFolderPath home ++ ["datasets"]) with
    | Except.error e => Except.error e
    | Except.ok files =>
      Except.ok (((files.filter (fun f =>
          statIsDirectory fs (getPareidoliaFolderPath home ++ ["datasets"] ++ [f]))).map
        (fun f => DirEntry.mk f (getPareidoliaFolderPath home ++ ["datasets"] ++ [f]))))

/-- Model of getModelsList: empty when the models directory does not
exist, otherwise its immediate children that are directories. -/
def getModelsList (home : FPath) (fs : FS) : Except String (List DirEntry) :=
  if !(existsSync fs (getPareidoliaFolderPath home ++ ["models"])) then Except.ok []
  else
    match readdirSync fs (getPareidoliaFolderPath home ++ ["models"]) with
    | Except.error e => Except.error e
    | Except.ok files =>
      Except.ok (((files.filter (fun f =>
          statIsDirectory fs (getPareidoliaFolderPath home ++ ["models"] ++ [f]))).map
        (fun f => DirEntry.mk f (getPareidoliaFolderPath home ++ ["models"] ++ [f]))))

/-- A name and local-file url pair, as produced by getProjectImages. -/
structure ImageRef where
  name : String
  url : String
deriving DecidableEq, Repr

/-- The extension allowlist of getProjectImages. -/
def imageExtensions : List String := [".jpg", ".jpeg", ".png"]

/-- Model of getProjectImages: the entries directly under the path
whose extension matches the allowlist case-insensitively, as name and
file url pairs; an empty list on any read failure. -/
def getProjectImages (fs : FS) (projectPath : FPath) : List ImageRef :=
  match readdirSync fs projectPath with
  | Except.error _ => []
  | Except.ok files =>
    (files.filter (fun f => imageExtensions.contains (strToLower (extname f)))).map
      (fun f => ImageRef.mk f ("file://" ++ pathToString (projectPath ++ [f])))

/-! ### Python environment and job executor (python.js) -/

/-- Host platform, as reported by process.platform. -/
inductive Platform where
  | win32 : Platform
  | darwin : Platform
  | linux : Platform
deriving DecidableEq, Repr

/-- Model of getVenvPath. -/
def getVenvPath (home : FPath) : FPath :=
  getPareidoliaFolderPath home ++ ["venv"]

/-- Model of getVenvPythonExecutable. -/
def getVenvPythonExecutable (platform : Platform) (home : FPath) : FPath :=
  if platform = Platform.win32 then getVenvPath home ++ ["Scripts", "python.exe"]
  else getVenvPath home ++ ["bin", "python"]

/-- Observable terminal event of a spawned child process: either a
close event with an exit code, or an error event with a message. -/
inductive ProcEvent where
  | closed (code : Int) : ProcEvent
  | errored (message : String) : ProcEvent
deriving DecidableEq, Repr

/-- The observable outcome of one spawned process: terminal event, the
accumulated stdout and stderr text, the wall-clock timestamp, and the
elapsed seconds. -/
structure ProcRun where
  event : ProcEvent
  stdout : String
  stderr : String
  timestamp : String
  totalTime : Nat
deriving DecidableEq, Repr

/-- Job result shape resolved by executePythonScript. -/
structure PyResult where
  success : Bool
  output : Option String
  error : Option String
  timestamp : String
  executionTime : Nat
deriving DecidableEq, Repr

/-- Model of executePythonScript: a total function of the process
outcome; it resolves on the close event with code zero to a success
record carrying trimmed stdout, and on a non-zero code or an error
event to a failure record, never throwing. -/
def executePythonScript (pythonPath : String) (args : List String)
    (venvPath : Option FPath) (run : ProcRun) : PyResult :=
  match run.event with
  | ProcEvent.closed code =>
    if code = 0 then
      { success := true, output := some run.stdout.trim, error := none,
        timestamp := run.timestamp, executionTime := run.totalTime }
    else
      { success := false, output := none,
        error := some (if run.stderr = "" then "Process exited with code " ++ toString code
                       else run.stderr),
        timestamp := run.timestamp, executionTime := run.totalTime }
  | ProcEvent.errored msg =>
    { success := false, output := none, error := some msg,
      timestamp := run.timestamp, executionTime := run.totalTime }

/-- A spawned command line: executable and argument vector. -/
structure SpawnCmd where
  cmd : String
  args : List String
deriving DecidableEq, Repr

/-- The ambient world setupPythonVenv runs against: whether the venv
directory already exists, and the outcomes of the venv-creation and
pip-install processes were they to be spawned. -/
structure VenvWorld where
  venvExists : Bool
  createEvent : ProcEvent
  createStderr : String
  pipEvent : ProcEvent
  pipStderr : String
deriving DecidableEq, Repr

/-- Result shape resolved by setupPythonVenv. -/
structure VenvResult where
  success : Bool
  venvPath : Option FPath
  pythonExecutable : Option FPath
  message : Option String
  error : Option String
deriving DecidableEq, Repr

/-- Model of setupPythonVenv, returning the resolved result together
with the list of processes spawned, in order.  When the venv directory
exists it resolves immediately, spawning nothing; otherwise it spawns
the platform-specific venv bootstrap and, when that exits zero, the
pip install of the three packages; every failure path resolves to a
failure record, never rejecting. -/
def setupPythonVenv (platform : Platform) (home : FPath) (w : VenvWorld) :
    VenvResult × List SpawnCmd :=
  if w.venvExists then
    ({ success := true, venvPath := some (getVenvPath home),
       pythonExecutable := some (getVenvPythonExecutable platform home),
       message := some "Virtual environment already exists", error := none }, [])
  else
    let createCmd : SpawnCmd :=
      if platform = Platform.win32 then
        SpawnCmd.mk "py" ["-3.11", "-m", "venv", pathToString (getVenvPath home)]
      else
        SpawnCmd.mk "python3.11" ["-m", "venv", pathToString (getVenvPath home)]
    match w.createEvent with
    | ProcEvent.errored msg =>
      ({ success := false, venvPath := none, pythonExecutable := none,
         message := none, error := some msg }, [createCmd])
    | ProcEvent.closed code =>
      if code = 0 then
        let pipCmd : SpawnCmd :=
          SpawnCmd.mk (pathToString (getVenvPythonExecutable platform home))
            ["-m", "pip", "install", "tensorflow", "opencv-python", "numpy"]
        match w.pipEvent with
        | ProcEvent.errored msg =>
          ({ success := false, venvPath := some (getVenvPath home),
             pythonExecutable := some (getVenvPythonExecutable platform home),
             message := none, error := some msg }, [createCmd, pipCmd])
        | ProcEvent.closed pipCode =>
          if pipCode = 0 then
            ({ success := true, venvPath := some (getVenvPath home),
               pythonExecutable := some (getVenvPythonExecutable platform home),
               message := some "Virtual environment created and packages installed successfully",
               error := none }, [createCmd, pipCmd])
          else
            ({ success := false, venvPath := some (getVenvPath home),
               pythonExecutable := some (getVenvPythonExecutable platform home),
               message := none,
               error := some (if w.pipStderr = "" then "pip exited with code " ++ toString pipCode
                              else w.pipStderr) }, [createCmd, pipCmd])
      else
        ({ success := false, venvPath := none, pythonExecutable := none,
           message := none,
           error := some (if w.createStderr = "" then
                            "venv creation exited with code " ++ toString code
                          else w.createStderr) }, [createCmd])

/-! ### Training IPC handler (main.js, execute-train) -/

/-- Parameters of the execute-train IPC invocation. -/
structure TrainParams where
  projectPath : FPath
  epochs : Nat
deriving DecidableEq, Repr

/-- What the execute-train handler does before any training result is
produced: either a short-circuit failure result without spawning, or
the invocation of the training script with its argument vector, with
the filesystem as mutated by model-folder creation. -/
inductive TrainAction where
  | shortCircuit (error : String) (timestamp : String) : TrainAction
  | runScript (args : List String) (fs : FS) : TrainAction
deriving DecidableEq, Repr

/-- Model of the execute-train IPC handler up to the spawn of the
training script: missing positives or negatives directories
short-circuit with a structured folder-not-found failure; the model
folder is created when missing; otherwise the training script is run
with the four positional arguments. -/
def executeTrainHandler (home : FPath) (now : String) (params : TrainParams) (fs : FS) :
    Except String TrainAction :=
  if !(existsSync fs (params.projectPath ++ ["positives"])) then
    Except.ok (TrainAction.shortCircuit
      ("Positives folder not found at: " ++ pathToString (params.projectPath ++ ["positives"])) now)
  else if !(existsSync fs (params.projectPath ++ ["negatives"])) then
    Except.ok (TrainAction.shortCircuit
      ("Negatives folder not found at: " ++ pathToString (params.projectPath ++ ["negatives"])) now)
  else
    match (if existsSync fs (params.projectPath ++ ["model"]) then Except.ok fs
           else mkdirRecursive fs (params.projectPath ++ ["model"])) with
    | Except.error e => Except.error e
    | Except.ok fs1 =>
      Except.ok (TrainAction.runScript
        [pathToString (params.projectPath ++ ["positives"]),
         pathToString (params.projectPath ++ ["negatives"]),
         pathToString (params.projectPath ++ ["model"] ++ ["model.keras"]),
         toString params.epochs] fs1)

/-! ### Express ingestion endpoint handlers (express.js) -/

/-- JS falsiness of an optional request string: absent or empty. -/
def falsy : Option String → Bool
  | none => true
  | some s => s == ""

/-- Response of the add-dataset route. -/
inductive AddDatasetResp where
  | badRequest (error : String) : AddDatasetResp
  | created (success : Bool) (datasetName : String) : AddDatasetResp
  | serverError (error : String) : AddDatasetResp
deriving DecidableEq, Repr

/-- HTTP status of an add-dataset response. -/
def AddDatasetResp.status : AddDatasetResp → Nat
  | .badRequest _ => 400
  | .created _ _ => 201
  | .serverError _ => 500

/-- Model of the POST add-dataset handler. -/
def postAddDataset (home : FPath) (datasetName : Option String) (fs : FS) :
    AddDatasetResp × FS :=
  if falsy datasetName then (AddDatasetResp.badRequest "datasetName is required", fs)
  else
    match createDatasetFolder home (datasetName.getD "") fs with
    | Except.ok (_, fs1) => (AddDatasetResp.created true (datasetName.getD ""), fs1)
    | Except.error e => (AddDatasetResp.serverError e, fs)

/-- Response of the download-model-mobile route. -/
inductive DownloadResp where
  | badRequest (error : String) : DownloadResp
  | notFound (error : String) : DownloadResp
  | download (filePath : FPath) (downloadName : String) : DownloadResp
  | serverError (error : String) (message : String) : DownloadResp
deriving DecidableEq, Repr

/-- HTTP status of a download-model-mobile response. -/
def DownloadResp.status : DownloadResp → Nat
  | .badRequest _ => 400
  | .notFound _ => 404
  | .download _ _ => 200
  | .serverError _ _ => 500

/-- Model of the GET download-model-mobile handler: validate the query
parameter, then the model folder, then the artifact, streaming the
artifact only when both exist. -/
def getDownloadModelMobile (home : FPath) (modelName : Option String) (fs : FS) :
    DownloadResp :=
  if falsy modelName then DownloadResp.badRequest "Error, modelName parameter is required"
  else
    if !(existsSync fs (getPareidoliaFolderPath home ++ ["models", modelName.getD ""])) then
      DownloadResp.notFound "Error, failure to find model folder"
    else
      if !(existsSync fs (getPareidoliaFolderPath home ++
          ["models", modelName.getD ""] ++ ["models"] ++ ["model.tflite"])) then
        DownloadResp.notFound "Error, no model created"
      else
        DownloadResp.download (getPareidoliaFolderPath home ++
          ["models", modelName.getD ""] ++ ["models"] ++ ["model.tflite"]) "model.tflite"

/-- Body of the upload-video route. -/
structure UploadReq where
  fileName : Option String
  fileData : Option String
  datasetName : Option String
deriving DecidableEq, Repr

/-- Response of the upload-video route. -/
inductive UploadResp where
  | badRequest (error : String) : UploadResp
  | created (success : Bool) (fileName : String) (datasetName : String) (fileSize : Nat) : UploadResp
  | serverError (success : Bool) (error : String) (message : String) : UploadResp
deriving DecidableEq, Repr

/-- HTTP status of an upload-video response. -/
def UploadResp.status : UploadResp → Nat
  | .badRequest _ => 400
  | .created _ _ _ _ => 201
  | .serverError _ _ _ => 500

/-- Observable side effects of the upload-video handler, in order. -/
inductive UploadEvent where
  | createdDataset (name : String) : UploadEvent
  | wroteFile (path : FPath) (content : List Nat) : UploadEvent
  | ranConversion (scriptPath : String) (args : List String) : UploadEvent
  | deletedFile (path : FPath) : UploadEvent
deriving DecidableEq, Repr

/-- Model of the POST upload-video handler.  The base64 decoder of
Buffer.from is an abstract total parameter; the conversion process
outcome is the run parameter.  Returns the response, the final
filesystem, and the side effects performed, in order.  Validation
failures return 400 before any mutation; the dataset is created only
when its root directory is absent; the decoded buffer is written into
positives, the conversion script is run, the video file is deleted
with any deletion failure swallowed, and 201 is returned whatever the
conversion outcome; exceptions from directory creation, decoding or
writing are caught and produce the 500 response. -/
def postUploadVideo (home : FPath) (decode : String → List Nat) (conv : ProcRun)
    (req : UploadReq) (fs : FS) : UploadResp × FS × List UploadEvent :=
  if falsy req.fileName then (UploadResp.badRequest "fileName is required", fs, [])
  else if falsy req.datasetName then (UploadResp.badRequest "datasetName is required", fs, [])
  else if falsy req.fileData then (UploadResp.badRequest "fileData is required", fs, [])
  else
    match (if !(existsSync fs (getPareidoliaFolderPath home ++ ["datasets"] ++
              [req.datasetName.getD ""])) then
             match createDatasetFolder home (req.datasetName.getD "") fs with
             | Except.ok (_, fs1) => Except.ok (fs1, [UploadEvent.createdDataset (req.datasetName.getD "")])
             | Except.error e => Except.error e
           else Except.ok (fs, ([] : List UploadEvent))) with
    | Except.error e =>
      (UploadResp.serverError false "Failed to process video upload" e, fs, [])
    | Except.ok (fs1, ev1) =>
      match writeFileSync fs1 (getPareidoliaFolderPath home ++ ["datasets"] ++
          [req.datasetName.getD ""] ++ ["positives"] ++ [req.fileName.getD ""])
          (decode (req.fileData.getD "")) with
      | Except.error e =>
        (UploadResp.serverError false "Failed to process video upload" e, fs1, ev1)
      | Except.ok fs2 =>
        let _conversionResult := executePythonScript "py/extract_images.py"
          [pathToString (getPareidoliaFolderPath home ++ ["datasets"] ++
             [req.datasetName.getD ""] ++ ["positives"] ++ [req.fileName.getD ""]),
           pathToString (getPareidoliaFolderPath home ++ ["datasets"] ++
             [req.datasetName.getD ""] ++ ["positives"])]
          (some (getVenvPath home)) conv
        let ev2 := ev1 ++ [UploadEvent.wroteFile (getPareidoliaFolderPath home ++ ["datasets"] ++
            [req.datasetName.getD ""] ++ ["positives"] ++ [req.fileName.getD ""])
            (decode (req.fileData.getD "")),
          UploadEvent.ranConversion "py/extract_images.py"
            [pathToString (getPareidoliaFolderPath home ++ ["datasets"] ++
               [req.datasetName.getD ""] ++ ["positives"] ++ [req.fileName.getD ""]),
             pathToString (getPareidoliaFolderPath home ++ ["datasets"] ++
               [req.datasetName.getD ""] ++ ["positives"])]]
        match unlinkSync fs2 (getPareidoliaFolderPath home ++ ["datasets"] ++
            [req.datasetName.getD ""] ++ ["positives"] ++ [req.fileName.getD ""]) with
        | Except.ok fs3 =>
          (UploadResp.created true (req.fileName.getD "")
            (req.datasetName.getD "") (decode (req.fileData.getD "")).length, fs3,
           ev2 ++ [UploadEvent.deletedFile (getPareidoliaFolderPath home ++ ["datasets"] ++
             [req.datasetName.getD ""] ++ ["positives"] ++ [req.fileName.getD ""])])
        | Except.error _ =>
          (UploadResp.created true (req.fileName.getD "")
            (req.datasetName.getD "") (decode (req.fileData.getD "")).length, fs2, ev2)

/-! ### Basic lemmas about the filesystem model -/

theorem existsSync_eq_true {fs : FS} {p : FPath} :
    existsSync fs p = true ↔ ∃ e ∈ fs, e.path = p := by
  simp [existsSync, List.any_eq_true]

theorem existsSync_eq_false {fs : FS} {p : FPath} :
    existsSync fs p = false ↔ ∀ e ∈ fs, e.path ≠ p := by
  rw [← Bool.not_eq_true, existsSync_eq_true]
  push_neg
  rfl

theorem lookupEntry_eq_none {fs : FS} {p : FPath} (h : existsSync fs p = false) :
    lookupEntry fs p = none := by
  rw [lookupEntry, List.find?_eq_none]
  intro e he
  simpa using existsSync_eq_false.mp h e he

theorem lookupEntry_mem {fs : FS} {p : FPath} {e : FSEntry}
    (h : lookupEntry fs p = some e) : e ∈ fs ∧ e.path = p := by
  refine ⟨List.mem_of_find?_eq_some h, ?_⟩
  simpa using List.find?_some h

theorem lookupEntry_of_exists {fs : FS} {p : FPath} (h : existsSync fs p = true) :
    ∃ e, lookupEntry fs p = some e ∧ e ∈ fs ∧ e.path = p := by
  cases hl : lookupEntry fs p with
  | none =>
    exfalso
    rcases existsSync_eq_true.mp h with ⟨e, he, hep⟩
    rw [lookupEntry, List.find?_eq_none] at hl
    exact hl e he (by simpa using hep)
  | some e => exact ⟨e, rfl, lookupEntry_mem hl⟩

theorem existsSync_mono {fs fs2 : FS} (h : ∀ e, e ∈ fs → e ∈ fs2) {p : FPath}
    (hp : existsSync fs p = true) : existsSync fs2 p = true := by
  rcases existsSync_eq_true.mp hp with ⟨e, he, hep⟩
  exact existsSync_eq_true.mpr ⟨e, h e he, hep⟩

theorem statIsDirectory_of_dirs {fs : FS} (hd : ∀ e ∈ fs, e.kind = FKind.dir)
    {p : FPath} (hp : existsSync fs p = true) : statIsDirectory fs p = true := by
  rcases lookupEntry_of_exists hp with ⟨e, hl, he, -⟩
  rw [statIsDirectory, hl]
  simp [hd e he, FKind.isDir]

theorem self_mem_pathPrefixes {p : FPath} (h : p ≠ []) : p ∈ pathPrefixes p := by
  rw [pathPrefixes, List.mem_map]
  have hpos : 0 < p.length := List.length_pos.mpr h
  refine ⟨p.length - 1, ?_, ?_⟩
  · rw [List.mem_range]; omega
  · have h1 : p.length - 1 + 1 = p.length := by omega
    rw [h1, List.take_length]

theorem mem_pathPrefixes_length {q p : FPath} (h : q ∈ pathPrefixes p) :
    q.length ≤ p.length := by
  rw [pathPrefixes, List.mem_map] at h
  rcases h with ⟨i, -, rfl⟩
  simp

/-- Behaviour of the recursive-mkdir worker on a filesystem whose
entries are all directories: it succeeds, preserves every existing
entry, adds only directories at the requested paths, makes every
requested path exist, and preserves well-formedness. -/
theorem mkdirGo_spec (qs : List FPath) : ∀ fs : FS, (∀ e ∈ fs, e.kind = FKind.dir) →
    ∃ fs2, mkdirGo fs qs = Except.ok fs2 ∧
      (∀ e, e ∈ fs → e ∈ fs2) ∧
      (∀ e, e ∈ fs2 → e ∈ fs ∨ (e.kind = FKind.dir ∧ e.path ∈ qs)) ∧
      (∀ q ∈ qs, existsSync fs2 q = true) ∧
      (FS.wf fs → FS.wf fs2) := by
  induction qs with
  | nil =>
    intro fs hd
    exact ⟨fs, rfl, fun e he => he, fun e he => Or.inl he, by simp, id⟩
  | cons q qs ih =>
    intro fs hd
    cases hl : lookupEntry fs q with
    | some e =>
      have hmem := lookupEntry_mem hl
      have hdir : e.kind.isDir = true := by simp [hd e hmem.1, FKind.isDir]
      rcases ih fs hd with ⟨fs2, hrun, hmono, hnew, hex, hwf⟩
      refine ⟨fs2, ?_, hmono, ?_, ?_, hwf⟩
      · rw [mkdirGo, hl]
        simp [hdir, hrun]
      · intro e2 he2
        rcases hnew e2 he2 with h | h
        · exact Or.inl h
        · exact Or.inr ⟨h.1, List.mem_cons_of_mem _ h.2⟩
      · intro q2 hq2
        rcases List.mem_cons.mp hq2 with rfl | hq2
        · exact existsSync_mono hmono (existsSync_eq_true.mpr ⟨e, hmem.1, hmem.2⟩)
        · exact hex q2 hq2
    | none =>
      have hq_new : existsSync fs q = false := by
        rw [existsSync_eq_false]
        intro e he
        rw [lookupEntry, List.find?_eq_none] at hl
        simpa using hl e he
      have hd1 : ∀ e ∈ fs ++ [⟨q, FKind.dir⟩], e.kind = FKind.dir := by
        intro e he
        rcases List.mem_append.mp he with h | h
        · exact hd e h
        · simp at h
          rw [h]
      rcases ih (fs ++ [⟨q, FKind.dir⟩]) hd1 with ⟨fs2, hrun, hmono, hnew, hex, hwf⟩
      refine ⟨fs2, ?_, ?_, ?_, ?_, ?_⟩
      · rw [mkdirGo, hl]
        exact hrun
      · intro e he
        exact hmono e (List.mem_append_left _ he)
      · intro e2 he2
        rcases hnew e2 he2 with h | h
        · rcases List.mem_append.mp h with h1 | h1
          · exact Or.inl h1
          · simp at h1
            rw [h1]
            exact Or.inr ⟨rfl, by simp⟩
        · exact Or.inr ⟨h.1, List.mem_cons_of_mem _ h.2⟩
      · intro q2 hq2
        rcases List.mem_cons.mp hq2 with rfl | h
        · refine existsSync_mono hmono (existsSync_eq_true.mpr ⟨⟨q2, FKind.dir⟩, ?_, rfl⟩)
          simp
        · exact hex q2 h
      · intro hwffs
        apply hwf
        unfold FS.wf at hwffs ⊢
        rw [List.map_append]
        refine List.Nodup.append hwffs (by simp) ?_
        intro a ha hb
        simp at hb
        rcases List.mem_map.mp ha with ⟨e, he, hep⟩
        exact existsSync_eq_false.mp hq_new e he (by rw [hep, hb])

/-- Behaviour of the guarded-creation idiom on an all-directories
filesystem with a nonempty target path. -/
theorem ensureDir_spec (fs : FS) (p : FPath) (hd : ∀ e ∈ fs, e.kind = FKind.dir)
    (hne : p ≠ []) :
    ∃ fs2, ensureDir fs p = Except.ok fs2 ∧
      (∀ e, e ∈ fs → e ∈ fs2) ∧
      (∀ e, e ∈ fs2 → e ∈ fs ∨ (e.kind = FKind.dir ∧ e.path ∈ pathPrefixes p)) ∧
      (∀ e ∈ fs2, e.kind = FKind.dir) ∧
      existsSync fs2 p = true ∧
      (FS.wf fs → FS.wf fs2) := by
  by_cases h : existsSync fs p = true
  · exact ⟨fs, by simp [ensureDir, h], fun e he => he, fun e he => Or.inl he, hd, h, id⟩
  · have h2 : existsSync fs p = false := by simpa using h
    rcases mkdirGo_spec (pathPrefixes p) fs hd with ⟨fs2, hrun, hmono, hnew, hex, hwf⟩
    refine ⟨fs2, ?_, hmono, hnew, ?_, ?_, hwf⟩
    · simp [ensureDir, h2, mkdirRecursive, hrun]
    · intro e he
      rcases hnew e he with h1 | h1
      · exact hd e h1
      · exact h1.1
    · exact hex p (self_mem_pathPrefixes hne)

/-- Behaviour of ensurePareidoliaFolder on an all-directories
filesystem: it succeeds, and afterwards the root and both category
directories exist; added entries are directories with paths of at most
home length plus three segments. -/
theorem ensurePareidoliaFolder_spec (home : FPath) (fs : FS)
    (hd : ∀ e ∈ fs, e.kind = FKind.dir) :
    ∃ fs2, ensurePareidoliaFolder home fs = Except.ok (getPareidoliaFolderPath home, fs2) ∧
      (∀ e, e ∈ fs → e ∈ fs2) ∧
      (∀ e, e ∈ fs2 → e ∈ fs ∨ (e.kind = FKind.dir ∧ e.path.length ≤ home.length + 3)) ∧
      (∀ e ∈ fs2, e.kind = FKind.dir) ∧
      existsSync fs2 (getPareidoliaFolderPath home) = true ∧
      existsSync fs2 (getPareidoliaFolderPath home ++ ["datasets"]) = true ∧
      existsSync fs2 (getPareidoliaFolderPath home ++ ["models"]) = true ∧
      (FS.wf fs → FS.wf fs2) := by
  have hne1 : getPareidoliaFolderPath home ≠ [] := by
    simp [getPareidoliaFolderPath, getDocumentsPath]
  have hne2 : getPareidoliaFolderPath home ++ ["datasets"] ≠ [] := by simp
  have hne3 : getPareidoliaFolderPath home ++ ["models"] ≠ [] := by simp
  rcases ensureDir_spec fs (getPareidoliaFolderPath home) hd hne1 with
    ⟨fsa, hruna, hmonoa, hnewa, hda, hexa, hwfa⟩
  rcases ensureDir_spec fsa (getPareidoliaFolderPath home ++ ["datasets"]) hda hne2 with
    ⟨fsb, hrunb, hmonob, hnewb, hdb, hexb, hwfb⟩
  rcases ensureDir_spec fsb (getPareidoliaFolderPath home ++ ["models"]) hdb hne3 with
    ⟨fsc, hrunc, hmonoc, hnewc, hdc, hexc, hwfc⟩
  have hlen1 : (getPareidoliaFolderPath home).length = home.length + 2 := by
    simp [getPareidoliaFolderPath, getDocumentsPath]
  refine ⟨fsc, ?_, ?_, ?_, hdc, ?_, ?_, hexc, fun h => hwfc (hwfb (hwfa h))⟩
  · simp only [ensurePareidoliaFolder, hruna, hrunb, hrunc]
  · intro e he
    exact hmonoc e (hmonob e (hmonoa e he))
  · intro e he
    rcases hnewc e he with h | h
    · rcases hnewb e h with h1 | h1
      · rcases hnewa e h1 with h2 | h2
        · exact Or.inl h2
        · refine Or.inr ⟨h2.1, ?_⟩
          have := mem_pathPrefixes_length h2.2
          omega
      · refine Or.inr ⟨h1.1, ?_⟩
        have := mem_pathPrefixes_length h1.2
        simp [hlen1] at this
        omega
    · refine Or.inr ⟨h.1, ?_⟩
      have := mem_pathPrefixes_length h.2
      simp [hlen1] at this
      omega
  · exact existsSync_mono hmonoc (existsSync_mono hmonob hexa)
  · exact existsSync_mono hmonoc hexb

/-- Behaviour of createDatasetFolder on an all-directories filesystem:
it succeeds with the dataset path, preserves every existing entry,
adds only directories with paths of at most home length plus five
segments, and afterwards the root, both category directories, the
dataset directory and its positives and negatives subdirectories all
exist. -/
theorem createDatasetFolder_spec (home : FPath) (name : String) (fs : FS)
    (hd : ∀ e ∈ fs, e.kind = FKind.dir) :
    ∃ fs2, createDatasetFolder home name fs =
        Except.ok (getPareidoliaFolderPath home ++ ["datasets"] ++ [name], fs2) ∧
      (∀ e, e ∈ fs → e ∈ fs2) ∧
      (∀ e, e ∈ fs2 → e ∈ fs ∨ (e.kind = FKind.dir ∧ e.path.length ≤ home.length + 5)) ∧
      (∀ e ∈ fs2, e.kind = FKind.dir) ∧
      existsSync fs2 (getPareidoliaFolderPath home) = true ∧
      existsSync fs2 (getPareidoliaFolderPath home ++ ["datasets"]) = true ∧
      existsSync fs2 (getPareidoliaFolderPath home ++ ["models"]) = true ∧
      existsSync fs2 (getPareidoliaFolderPath home ++ ["datasets"] ++ [name]) = true ∧
      existsSync fs2 (getPareidoliaFolderPath home ++ ["datasets"] ++ [name] ++ ["positives"]) = true ∧
      existsSync fs2 (getPareidoliaFolderPath home ++ ["datasets"] ++ [name] ++ ["negatives"]) = true ∧
      (FS.wf fs → FS.wf fs2) := by
  rcases ensurePareidoliaFolder_spec home fs hd with
    ⟨fsa, hruna, hmonoa, hnewa, hda, hexa1, hexa2, hexa3, hwfa⟩
  have hlen1 : (getPareidoliaFolderPath home).length = home.length + 2 := by
    simp [getPareidoliaFolderPath, getDocumentsPath]
  rcases ensureDir_spec fsa (getPareidoliaFolderPath home ++ ["datasets"] ++ [name]) hda
    (by simp) with ⟨fsb, hrunb, hmonob, hnewb, hdb, hexb, hwfb⟩
  rcases ensureDir_spec fsb
    (getPareidoliaFolderPath home ++ ["datasets"] ++ [name] ++ ["positives"]) hdb
    (by simp) with ⟨fsc, hrunc, hmonoc, hnewc, hdc, hexc, hwfc⟩
  rcases ensureDir_spec fsc
    (getPareidoliaFolderPath home ++ ["datasets"] ++ [name] ++ ["negatives"]) hdc
    (by simp) with ⟨fsd, hrund, hmonod, hnewd, hdd, hexd, hwfd⟩
  refine ⟨fsd, ?_, ?_, ?_, hdd, ?_, ?_, ?_, ?_, ?_, hexd,
    fun h => hwfd (hwfc (hwfb (hwfa h)))⟩
  · simp only [createDatasetFolder, hruna, hrunb, hrunc, hrund]
  · intro e he
    exact hmonod e (hmonoc e (hmonob e (hmonoa e he)))
  · intro e he
    rcases hnewd e he with h | h
    · rcases hnewc e h with h1 | h1
      · rcases hnewb e h1 with h2 | h2
        · rcases hnewa e h2 with h3 | h3
          · exact Or.inl h3
          · exact Or.inr ⟨h3.1, by omega⟩
        · refine Or.inr ⟨h2.1, ?_⟩
          have := mem_pathPrefixes_length h2.2
          simp [hlen1] at this
          omega
      · refine Or.inr ⟨h1.1, ?_⟩
        have := mem_pathPrefixes_length h1.2
        simp [hlen1] at this
        omega
    · refine Or.inr ⟨h.1, ?_⟩
      have := mem_pathPrefixes_length h.2
      simp [hlen1] at this
      omega
  · exact existsSync_mono hmonod (existsSync_mono hmonoc (existsSync_mono hmonob hexa1))
  · exact existsSync_mono hmonod (existsSync_mono hmonoc (existsSync_mono hmonob hexa2))
  · exact existsSync_mono hmonod (existsSync_mono hmonoc (existsSync_mono hmonob hexa3))
  · exact existsSync_mono hmonod (existsSync_mono hmonoc hexb)
  · exact existsSync_mono hmonod hexc

/-- In a duplicate-free list every member is counted exactly once. -/
theorem count_eq_one_of_nodup_mem {l : List FPath} (hn : l.Nodup) {a : FPath} (h : a ∈ l) :
    l.count a = 1 := by
  induction l with
  | nil => simp at h
  | cons b l ih =>
    rw [List.count_cons]
    rcases List.mem_cons.mp h with rfl | h2
    · have hb : l.count a = 0 := List.count_eq_zero.mpr (List.nodup_cons.mp hn).1
      simp [hb]
    · have hne : ¬(b == a) = true := by
        simp only [beq_iff_eq]
        rintro rfl
        exact (List.nodup_cons.mp hn).1 h2
      rw [ih (List.nodup_cons.mp hn).2 h2]
      simp [hne]

/-- An entry reports name n among the children of d exactly when its
path is d extended by n. -/
theorem childName_eq_some {d : FPath} {e : FSEntry} {n : String} :
    childName d e = some n ↔ e.path = d ++ [n] := by
  rcases e with ⟨p, k⟩
  induction p using List.reverseRecOn with
  | nil =>
    simp only [childName]
    constructor
    · intro h
      simp at h
    · intro h
      exact absurd h (by simp)
  | append_singleton l a ih =>
    simp only [childName, List.getLast?_concat, List.dropLast_concat]
    by_cases hld : l = d
    · subst hld
      simp
    · simp only [if_neg hld]
      constructor
      · intro h
        simp at h
      · intro h
        exfalso
        have := congrArg List.dropLast h
        simp only [List.dropLast_concat] at this
        exact hld this

/-- The number of occurrences of a name in a directory listing is the
number of entries whose path is the directory extended by the name. -/
theorem count_children (fs : FS) (d : FPath) (n : String) :
    (fs.filterMap (childName d)).count n = ((fs.map FSEntry.path).count (d ++ [n])) := by
  rw [List.count_filterMap, List.count_eq_countP, List.countP_map]
  apply List.countP_congr
  intro e _
  by_cases h : e.path = d ++ [n]
  · simp [childName_eq_some.mpr h, h, Function.comp]
  · have h2 : childName d e ≠ some n := fun hc => h (childName_eq_some.mp hc)
    simp [h, h2, Function.comp]

/-! ### Claim theorems -/

/-- C1: For every script path, argument list, and optional environment
path, executePythonScript never throws or rejects (it is a total
function into the result type): when the process closes with code 0 it
resolves success with the trimmed stdout, the timestamp and the
elapsed time; on a non-zero exit it resolves failure with the stderr
text, or an exited-with-code message when stderr is empty; on a spawn
error it resolves failure with the process-error message. -/
theorem executePythonScript_result_contract (pythonPath : String) (args : List String)
    (venvPath : Option FPath) (run : ProcRun) :
    (run.event = ProcEvent.closed 0 →
      executePythonScript pythonPath args venvPath run =
        { success := true, output := some run.stdout.trim, error := none,
          timestamp := run.timestamp, executionTime := run.totalTime }) ∧
    (∀ code : Int, code ≠ 0 → run.event = ProcEvent.closed code →
      (run.stderr ≠ "" →
        executePythonScript pythonPath args venvPath run =
          { success := false, output := none, error := some run.stderr,
            timestamp := run.timestamp, executionTime := run.totalTime }) ∧
      (run.stderr = "" →
        executePythonScript pythonPath args venvPath run =
          { success := false, output := none,
            error := some ("Process exited with code " ++ toString code),
            timestamp := run.timestamp, executionTime := run.totalTime })) ∧
    (∀ msg, run.event = ProcEvent.errored msg →
      executePythonScript pythonPath args venvPath run =
        { success := false, output := none, error := some msg,
          timestamp := run.timestamp, executionTime := run.totalTime }) := by
  refine ⟨?_, ?_, ?_⟩
  · intro h
    simp [executePythonScript, h]
  · intro code hc h
    constructor
    · intro hs
      simp [executePythonScript, h, hc, hs]
    · intro hs
      simp [executePythonScript, h, hc, hs]
  · intro msg h
    simp [executePythonScript, h]

/-- Witness for C1 at a concrete failing run: exit code 1 with stderr
text resolves the structured failure record. -/
theorem executePythonScript_result_contract_witness :
    executePythonScript "train_model.py" ["5"] none
      (ProcRun.mk (ProcEvent.closed 1) "" "boom" "t0" 3) =
      { success := false, output := none, error := some "boom",
        timestamp := "t0", executionTime := 3 } :=
  ((executePythonScript_result_contract "train_model.py" ["5"] none
    (ProcRun.mk (ProcEvent.closed 1) "" "boom" "t0" 3)).2.1 1 (by decide) rfl).1 (by decide)

/-- C5: setupPythonVenv returns immediately with a success result
carrying the venv path and interpreter path (its reuse message
signalling the environment already exists) when the venv directory
exists, spawning no process; when absent it runs the bootstrap and the
package install, succeeds exactly when both exited with code zero, and
otherwise resolves a failure record carrying an error, never
rejecting (it is a total function into the result type). -/
theorem setupPythonVenv_reuse_and_outcome (platform : Platform) (home : FPath)
    (w : VenvWorld) :
    (w.venvExists = true →
      setupPythonVenv platform home w =
        ({ success := true, venvPath := some (getVenvPath home),
           pythonExecutable := some (getVenvPythonExecutable platform home),
           message := some "Virtual environment already exists", error := none }, [])) ∧
    (w.venvExists = false →
      (((setupPythonVenv platform home w).1.success = true) ↔
        (w.createEvent = ProcEvent.closed 0 ∧ w.pipEvent = ProcEvent.closed 0)) ∧
      ((setupPythonVenv platform home w).1.success = false →
        ((setupPythonVenv platform home w).1.error).isSome = true)) := by
  constructor
  · intro h
    simp [setupPythonVenv, h]
  · intro h
    cases hc : w.createEvent with
    | errored msg =>
      constructor
      · simp [setupPythonVenv, h, hc]
      · intro _
        simp [setupPythonVenv, h, hc]
    | closed code =>
      by_cases hz : code = 0
      · subst hz
        cases hp : w.pipEvent with
        | errored m =>
          constructor
          · simp [setupPythonVenv, h, hc, hp]
          · intro _
            simp [setupPythonVenv, h, hc, hp]
        | closed pc =>
          by_cases hpz : pc = 0
          · subst hpz
            constructor
            · simp [setupPythonVenv, h, hc, hp]
            · intro hs
              simp [setupPythonVenv, h, hc, hp] at hs
          · constructor
            · simp [setupPythonVenv, h, hc, hp, hpz]
            · intro _
              simp [setupPythonVenv, h, hc, hp, hpz]
      · constructor
        · simp [setupPythonVenv, h, hc, hz]
        · intro _
          simp [setupPythonVenv, h, hc, hz]

/-- Witness for C5 at a concrete world with an existing venv. -/
theorem setupPythonVenv_reuse_and_outcome_witness :
    setupPythonVenv Platform.linux ["home", "user"]
      (VenvWorld.mk true (ProcEvent.closed 0) "" (ProcEvent.closed 0) "") =
      ({ success := true,
         venvPath := some ["home", "user", "Documents", "PareidoliaApp", "venv"],
         pythonExecutable := some
           ["home", "user", "Documents", "PareidoliaApp", "venv", "bin", "python"],
         message := some "Virtual environment already exists", error := none }, []) := by
  have h := (setupPythonVenv_reuse_and_outcome Platform.linux ["home", "user"]
    (VenvWorld.mk true (ProcEvent.closed 0) "" (ProcEvent.closed 0) "")).1 rfl
  simpa using h

/-- C9: the download-model-mobile handler answers 400 to a missing
modelName parameter, 404 (not 500) when the model directory is
missing, 404 when the directory exists but the model.tflite artifact
is missing, and streams the artifact only when both exist. -/
theorem downloadModelMobile_status_contract (home : FPath) (modelName : Option String)
    (fs : FS) :
    (falsy modelName = true →
      getDownloadModelMobile home modelName fs =
        DownloadResp.badRequest "Error, modelName parameter is required" ∧
      (getDownloadModelMobile home modelName fs).status = 400) ∧
    (falsy modelName = false →
      existsSync fs (getPareidoliaFolderPath home ++ ["models", modelName.getD ""]) = false →
      getDownloadModelMobile home modelName fs =
        DownloadResp.notFound "Error, failure to find model folder" ∧
      (getDownloadModelMobile home modelName fs).status = 404) ∧
    (falsy modelName = false →
      existsSync fs (getPareidoliaFolderPath home ++ ["models", modelName.getD ""]) = true →
      existsSync fs (getPareidoliaFolderPath home ++ ["models", modelName.getD ""] ++
        ["models"] ++ ["model.tflite"]) = false →
      getDownloadModelMobile home modelName fs =
        DownloadResp.notFound "Error, no model created" ∧
      (getDownloadModelMobile home modelName fs).status = 404) ∧
    (falsy modelName = false →
      existsSync fs (getPareidoliaFolderPath home ++ ["models", modelName.getD ""]) = true →
      existsSync fs (getPareidoliaFolderPath home ++ ["models", modelName.getD ""] ++
        ["models"] ++ ["model.tflite"]) = true →
      getDownloadModelMobile home modelName fs =
        DownloadResp.download (getPareidoliaFolderPath home ++
          ["models", modelName.getD ""] ++ ["models"] ++ ["model.tflite"]) "model.tflite") := by
  refine ⟨?_, ?_, ?_, ?_⟩
  · intro h
    constructor
    · simp [getDownloadModelMobile, h]
    · simp [getDownloadModelMobile, h, DownloadResp.status]
  · intro h h2
    constructor
    · simp [getDownloadModelMobile, h, h2]
    · simp [getDownloadModelMobile, h, h2, DownloadResp.status]
  · intro h h2 h3
    simp at h2 h3
    constructor
    · simp [getDownloadModelMobile, h, h2, h3]
    · simp [getDownloadModelMobile, h, h2, h3, DownloadResp.status]
  · intro h h2 h3
    simp at h2 h3
    simp [getDownloadModelMobile, h, h2, h3]

/-- Witness for C9: a named model whose directory is absent on an
empty store gets 404. -/
theorem downloadModelMobile_status_contract_witness :
    getDownloadModelMobile [] (some "Flowers") [] =
      DownloadResp.notFound "Error, failure to find model folder" :=
  ((downloadModelMobile_status_contract [] (some "Flowers") []).2.1 rfl rfl).1

/-- C4 (amended): a missing positives or negatives directory makes the
execute-train operation short-circuit with a structured folder-not-found
failure before any process is spawned; a missing model output directory
does not short-circuit: it is created (recursively) and the training
script is then invoked with the positional arguments positivesPath,
negativesPath, modelOutputPath and the epoch count as a string. -/
theorem executeTrain_folder_checks (home : FPath) (now : String) (params : TrainParams)
    (fs : FS) :
    (existsSync fs (params.projectPath ++ ["positives"]) = false →
      executeTrainHandler home now params fs =
        Except.ok (TrainAction.shortCircuit
          ("Positives folder not found at: " ++
            pathToString (params.projectPath ++ ["positives"])) now)) ∧
    (existsSync fs (params.projectPath ++ ["positives"]) = true →
     existsSync fs (params.projectPath ++ ["negatives"]) = false →
      executeTrainHandler home now params fs =
        Except.ok (TrainAction.shortCircuit
          ("Negatives folder not found at: " ++
            pathToString (params.projectPath ++ ["negatives"])) now)) ∧
    (existsSync fs (params.projectPath ++ ["positives"]) = true →
     existsSync fs (params.projectPath ++ ["negatives"]) = true →
     existsSync fs (params.projectPath ++ ["model"]) = true →
      executeTrainHandler home now params fs =
        Except.ok (TrainAction.runScript
          [pathToString (params.projectPath ++ ["positives"]),
           pathToString (params.projectPath ++ ["negatives"]),
           pathToString (params.projectPath ++ ["model"] ++ ["model.keras"]),
           toString params.epochs] fs)) ∧
    (existsSync fs (params.projectPath ++ ["positives"]) = true →
     existsSync fs (params.projectPath ++ ["negatives"]) = true →
     existsSync fs (params.projectPath ++ ["model"]) = false →
     ∀ fs1, mkdirRecursive fs (params.projectPath ++ ["model"]) = Except.ok fs1 →
      executeTrainHandler home now params fs =
        Except.ok (TrainAction.runScript
          [pathToString (params.projectPath ++ ["positives"]),
           pathToString (params.projectPath ++ ["negatives"]),
           pathToString (params.projectPath ++ ["model"] ++ ["model.keras"]),
           toString params.epochs] fs1)) := by
  refine ⟨?_, ?_, ?_, ?_⟩
  · intro h
    simp [executeTrainHandler, h]
  · intro h h2
    simp [executeTrainHandler, h, h2]
  · intro h h2 h3
    simp [executeTrainHandler, h, h2, h3]
  · intro h h2 h3 fs1 hmk
    simp [executeTrainHandler, h, h2, h3, hmk]

/-- Witness for the amended C4 at a concrete project with all three
directories present. -/
theorem executeTrain_folder_checks_witness :
    executeTrainHandler [] "t0" (TrainParams.mk ["p"] 5)
      [⟨["p"], FKind.dir⟩, ⟨["p", "positives"], FKind.dir⟩,
       ⟨["p", "negatives"], FKind.dir⟩, ⟨["p", "model"], FKind.dir⟩] =
      Except.ok (TrainAction.runScript
        ["p/positives", "p/negatives", "p/model/model.keras", "5"]
        [⟨["p"], FKind.dir⟩, ⟨["p", "positives"], FKind.dir⟩,
         ⟨["p", "negatives"], FKind.dir⟩, ⟨["p", "model"], FKind.dir⟩]) := by
  have h := (executeTrain_folder_checks [] "t0" (TrainParams.mk ["p"] 5)
    [⟨["p"], FKind.dir⟩, ⟨["p", "positives"], FKind.dir⟩,
     ⟨["p", "negatives"], FKind.dir⟩, ⟨["p", "model"], FKind.dir⟩]).2.2.1 rfl rfl rfl
  rw [h]
  rfl

/-- A concrete state for the C4 counterexample: positives and
negatives exist, the model output directory does not. -/
def trainFsC : FS :=
  [⟨["p"], FKind.dir⟩, ⟨["p", "positives"], FKind.dir⟩, ⟨["p", "negatives"], FKind.dir⟩]

/-- C4 counterexample: with positives and negatives present but the
model output directory absent, the handler does not short-circuit with
a folder-not-found failure; it creates the model directory and runs
the training script, refuting the claim that a missing model output
directory short-circuits before any process is spawned. -/
theorem executeTrain_model_folder_counterexample :
    existsSync trainFsC ["p", "model"] = false ∧
    executeTrainHandler [] "t0" (TrainParams.mk ["p"] 5) trainFsC =
      Except.ok (TrainAction.runScript
        ["p/positives", "p/negatives", "p/model/model.keras", "5"]
        (trainFsC ++ [⟨["p", "model"], FKind.dir⟩])) := by
  constructor
  · rfl
  · rfl

/-- C6: getProjectImages lists exactly the entries directly under the
path whose extension matches .jpg, .jpeg or .png case-insensitively,
in read order, as name and local-file-url pairs, and returns the empty
list instead of an error whenever the directory cannot be read (it is
absent or not a directory). -/
theorem getProjectImages_filter_contract (fs : FS) (projectPath : FPath) :
    (existsSync fs projectPath = false → getProjectImages fs projectPath = []) ∧
    (statIsDirectory fs projectPath = false → getProjectImages fs projectPath = []) ∧
    (statIsDirectory fs projectPath = true →
      getProjectImages fs projectPath =
        ((fs.filterMap (childName projectPath)).filter
          (fun f => imageExtensions.contains (strToLower (extname f)))).map
          (fun f => ImageRef.mk f ("file://" ++ pathToString (projectPath ++ [f])))) := by
  refine ⟨?_, ?_, ?_⟩
  · intro h
    rw [getProjectImages, readdirSync, lookupEntry_eq_none h]
  · intro h
    rw [statIsDirectory] at h
    rw [getProjectImages, readdirSync]
    cases hl : lookupEntry fs projectPath with
    | none => rfl
    | some e =>
      rw [hl] at h
      simp only [] at h
      simp [h]
  · intro h
    rw [statIsDirectory] at h
    rw [getProjectImages, readdirSync]
    cases hl : lookupEntry fs projectPath with
    | none => rw [hl] at h; exact absurd h (by simp)
    | some e =>
      rw [hl] at h
      simp only [] at h
      simp [h]

/-- Witness for C6: a directory holding files a.jpg, b.txt and c.PNG
yields exactly the a.jpg and c.PNG entries. -/
theorem getProjectImages_filter_contract_witness :
    getProjectImages
      [⟨["d"], FKind.dir⟩, ⟨["d", "a.jpg"], FKind.file []⟩,
       ⟨["d", "b.txt"], FKind.file []⟩, ⟨["d", "c.PNG"], FKind.file []⟩] ["d"] =
      [ImageRef.mk "a.jpg" "file://d/a.jpg", ImageRef.mk "c.PNG" "file://d/c.PNG"] := by
  have h := (getProjectImages_filter_contract
    [⟨["d"], FKind.dir⟩, ⟨["d", "a.jpg"], FKind.file []⟩,
     ⟨["d", "b.txt"], FKind.file []⟩, ⟨["d", "c.PNG"], FKind.file []⟩] ["d"]).2.2 rfl
  rw [h]
  rfl

/-- C7: getDatasetsList and getModelsList return the immediate
children of their category directory filtered to directories only, as
name and path pairs in read order, and return the empty list rather
than an error when the category directory does not exist. -/
theorem listDatasets_listModels_contract (home : FPath) (fs : FS) :
    (existsSync fs (getPareidoliaFolderPath home ++ ["datasets"]) = false →
      getDatasetsList home fs = Except.ok []) ∧
    (statIsDirectory fs (getPareidoliaFolderPath home ++ ["datasets"]) = true →
      getDatasetsList home fs = Except.ok
        (((fs.filterMap (childName (getPareidoliaFolderPath home ++ ["datasets"]))).filter
          (fun f => statIsDirectory fs (getPareidoliaFolderPath home ++ ["datasets"] ++ [f]))).map
          (fun f => DirEntry.mk f (getPareidoliaFolderPath home ++ ["datasets"] ++ [f])))) ∧
    (existsSync fs (getPareidoliaFolderPath home ++ ["models"]) = false →
      getModelsList home fs = Except.ok []) ∧
    (statIsDirectory fs (getPareidoliaFolderPath home ++ ["models"]) = true →
      getModelsList home fs = Except.ok
        (((fs.filterMap (childName (getPareidoliaFolderPath home ++ ["models"]))).filter
          (fun f => statIsDirectory fs (getPareidoliaFolderPath home ++ ["models"] ++ [f]))).map
          (fun f => DirEntry.mk f (getPareidoliaFolderPath home ++ ["models"] ++ [f])))) := by
  refine ⟨?_, ?_, ?_, ?_⟩
  · intro h
    simp [getDatasetsList, h]
  · intro h
    have hex : existsSync fs (getPareidoliaFolderPath home ++ ["datasets"]) = true := by
      rw [statIsDirectory] at h
      cases hl : lookupEntry fs (getPareidoliaFolderPath home ++ ["datasets"]) with
      | none => rw [hl] at h; exact absurd h (by simp)
      | some e =>
        rcases lookupEntry_mem hl with ⟨he, hp⟩
        exact existsSync_eq_true.mpr ⟨e, he, hp⟩
    rw [statIsDirectory] at h
    rw [getDatasetsList, hex]
    cases hl : lookupEntry fs (getPareidoliaFolderPath home ++ ["datasets"]) with
    | none => rw [hl] at h; exact absurd h (by simp)
    | some e =>
      rw [hl] at h
      simp only [] at h
      simp [readdirSync, hl, h]
  · intro h
    simp [getModelsList, h]
  · intro h
    have hex : existsSync fs (getPareidoliaFolderPath home ++ ["models"]) = true := by
      rw [statIsDirectory] at h
      cases hl : lookupEntry fs (getPareidoliaFolderPath home ++ ["models"]) with
      | none => rw [hl] at h; exact absurd h (by simp)
      | some e =>
        rcases lookupEntry_mem hl with ⟨he, hp⟩
        exact existsSync_eq_true.mpr ⟨e, he, hp⟩
    rw [statIsDirectory] at h
    rw [getModelsList, hex]
    cases hl : lookupEntry fs (getPareidoliaFolderPath home ++ ["models"]) with
    | none => rw [hl] at h; exact absurd h (by simp)
    | some e =>
      rw [hl] at h
      simp only [] at h
      simp [readdirSync, hl, h]

/-- Witness for C7: a freshly-initialized empty store lists no
datasets and no models, with no error. -/
theorem listDatasets_listModels_contract_witness :
    getDatasetsList [] ([] : FS) = Except.ok [] ∧
    getModelsList [] ([] : FS) = Except.ok [] :=
  ⟨(listDatasets_listModels_contract [] ([] : FS)).1 rfl,
   (listDatasets_listModels_contract [] ([] : FS)).2.2.1 rfl⟩

/-- C8: the add-dataset handler answers 400, identifying the field,
and performs no filesystem mutation when datasetName is missing or
empty; when it is present it delegates to dataset creation and, when
that succeeds, answers 201 with the success flag and the name. -/
theorem addDataset_validation_contract (home : FPath) (datasetName : Option String)
    (fs : FS) :
    (falsy datasetName = true →
      postAddDataset home datasetName fs =
        (AddDatasetResp.badRequest "datasetName is required", fs) ∧
      (AddDatasetResp.badRequest "datasetName is required").status = 400) ∧
    (∀ s, datasetName = some s → falsy datasetName = false →
      ∀ p fs2, createDatasetFolder home s fs = Except.ok (p, fs2) →
        postAddDataset home datasetName fs = (AddDatasetResp.created true s, fs2) ∧
        (AddDatasetResp.created true s).status = 201) := by
  constructor
  · intro h
    exact ⟨by simp [postAddDataset, h], rfl⟩
  · intro s hs h p fs2 hc
    subst hs
    refine ⟨?_, rfl⟩
    simp [postAddDataset, h, hc]

/-- Witness for C8: creating dataset d on an empty store answers 201. -/
theorem addDataset_validation_contract_witness :
    (postAddDataset [] (some "d") ([] : FS)).1 = AddDatasetResp.created true "d" := by
  have h := ((addDataset_validation_contract [] (some "d") ([] : FS)).2 "d" rfl rfl
    (["Documents", "PareidoliaApp", "datasets", "d"])
    [⟨["Documents"], FKind.dir⟩, ⟨["Documents", "PareidoliaApp"], FKind.dir⟩,
     ⟨["Documents", "PareidoliaApp", "datasets"], FKind.dir⟩,
     ⟨["Documents", "PareidoliaApp", "models"], FKind.dir⟩,
     ⟨["Documents", "PareidoliaApp", "datasets", "d"], FKind.dir⟩,
     ⟨["Documents", "PareidoliaApp", "datasets", "d", "positives"], FKind.dir⟩,
     ⟨["Documents", "PareidoliaApp", "datasets", "d", "negatives"], FKind.dir⟩]
    (by rfl)).1
  rw [h]

/-- C3: on a well-formed all-directories store, a successful
createDatasetFolder leaves the dataset directory and its positives and
negatives subdirectories in place as directories, touches no existing
entry, is idempotent (the second call returns the same path and the
same state, raising no error), and a subsequent getDatasetsList lists
the dataset name exactly once. -/
theorem createDatasetFolder_idempotent_unique (home : FPath) (name : String)
    (fs fs2 : FS) (p : FPath)
    (hd : ∀ e ∈ fs, e.kind = FKind.dir) (hwf : FS.wf fs)
    (h : createDatasetFolder home name fs = Except.ok (p, fs2)) :
    statIsDirectory fs2 p = true ∧
    statIsDirectory fs2 (p ++ ["positives"]) = true ∧
    statIsDirectory fs2 (p ++ ["negatives"]) = true ∧
    (∀ e, e ∈ fs → e ∈ fs2) ∧
    createDatasetFolder home name fs2 = Except.ok (p, fs2) ∧
    ∃ l, getDatasetsList home fs2 = Except.ok l ∧ (l.map DirEntry.name).count name = 1 := by
  rcases createDatasetFolder_spec home name fs hd with
    ⟨fs2s, hrun, hmono, hnew, hd2, hex1, hex2, hex3, hex4, hex5, hex6, hwf2⟩
  rw [h] at hrun
  have hinj : p = getPareidoliaFolderPath home ++ ["datasets"] ++ [name] ∧ fs2 = fs2s := by
    have := hrun
    simp only [Except.ok.injEq, Prod.mk.injEq] at this
    exact ⟨this.1, this.2⟩
  rcases hinj with ⟨hp, hfs⟩
  subst hp
  subst hfs
  refine ⟨statIsDirectory_of_dirs hd2 hex4, statIsDirectory_of_dirs hd2 hex5,
    statIsDirectory_of_dirs hd2 hex6, hmono, ?_, ?_⟩
  · simp only [createDatasetFolder, ensurePareidoliaFolder, ensureDir, hex1, hex2, hex3,
      hex4, hex5, hex6, eq_self_iff_true, if_true]
  · rcases lookupEntry_of_exists hex2 with ⟨e, hl, he, hep⟩
    have e_dir : e.kind.isDir = true := by simp [hd2 e he, FKind.isDir]
    have hreaddir : readdirSync fs2 (getPareidoliaFolderPath home ++ ["datasets"]) =
        Except.ok (fs2.filterMap (childName (getPareidoliaFolderPath home ++ ["datasets"]))) := by
      rw [readdirSync, hl]
      simp [e_dir]
    refine ⟨((fs2.filterMap (childName (getPareidoliaFolderPath home ++ ["datasets"]))).filter
      (fun f => statIsDirectory fs2 (getPareidoliaFolderPath home ++ ["datasets"] ++ [f]))).map
      (fun f => DirEntry.mk f (getPareidoliaFolderPath home ++ ["datasets"] ++ [f])), ?_, ?_⟩
    · simp only [getDatasetsList, hex2, Bool.not_true, hreaddir]
      rfl
    · rw [List.map_map]
      have hid : (DirEntry.name ∘ fun f =>
          DirEntry.mk f (getPareidoliaFolderPath home ++ ["datasets"] ++ [f])) = id := by
        funext f
        rfl
      rw [hid, List.map_id]
      have hP : statIsDirectory fs2 (getPareidoliaFolderPath home ++ ["datasets"] ++ [name]) =
          true := statIsDirectory_of_dirs hd2 hex4
      rw [List.count_filter (p := fun f =>
        statIsDirectory fs2 (getPareidoliaFolderPath home ++ ["datasets"] ++ [f])) hP]
      rw [count_children]
      refine count_eq_one_of_nodup_mem (hwf2 hwf) ?_
      rcases existsSync_eq_true.mp hex4 with ⟨e2, he2, hep2⟩
      exact List.mem_map.mpr ⟨e2, he2, hep2⟩

/-- Witness for C3: creating dataset d on an empty store succeeds and
a second call returns the same state. -/
theorem createDatasetFolder_idempotent_unique_witness :
    createDatasetFolder [] "d"
      [⟨["Documents"], FKind.dir⟩, ⟨["Documents", "PareidoliaApp"], FKind.dir⟩,
       ⟨["Documents", "PareidoliaApp", "datasets"], FKind.dir⟩,
       ⟨["Documents", "PareidoliaApp", "models"], FKind.dir⟩,
       ⟨["Documents", "PareidoliaApp", "datasets", "d"], FKind.dir⟩,
       ⟨["Documents", "PareidoliaApp", "datasets", "d", "positives"], FKind.dir⟩,
       ⟨["Documents", "PareidoliaApp", "datasets", "d", "negatives"], FKind.dir⟩] =
      Except.ok (["Documents", "PareidoliaApp", "datasets", "d"],
        [⟨["Documents"], FKind.dir⟩, ⟨["Documents", "PareidoliaApp"], FKind.dir⟩,
         ⟨["Documents", "PareidoliaApp", "datasets"], FKind.dir⟩,
         ⟨["Documents", "PareidoliaApp", "models"], FKind.dir⟩,
         ⟨["Documents", "PareidoliaApp", "datasets", "d"], FKind.dir⟩,
         ⟨["Documents", "PareidoliaApp", "datasets", "d", "positives"], FKind.dir⟩,
         ⟨["Documents", "PareidoliaApp", "datasets", "d", "negatives"], FKind.dir⟩]) :=
  (createDatasetFolder_idempotent_unique [] "d" []
    [⟨["Documents"], FKind.dir⟩, ⟨["Documents", "PareidoliaApp"], FKind.dir⟩,
     ⟨["Documents", "PareidoliaApp", "datasets"], FKind.dir⟩,
     ⟨["Documents", "PareidoliaApp", "models"], FKind.dir⟩,
     ⟨["Documents", "PareidoliaApp", "datasets", "d"], FKind.dir⟩,
     ⟨["Documents", "PareidoliaApp", "datasets", "d", "positives"], FKind.dir⟩,
     ⟨["Documents", "PareidoliaApp", "datasets", "d", "negatives"], FKind.dir⟩]
    ["Documents", "PareidoliaApp", "datasets", "d"]
    (by simp) (by decide) (by rfl)).2.2.2.2.1

/-- C10: when all three upload fields are present, the dataset root
directory exists but its positives subdirectory does not, the handler
skips the implicit dataset-creation step (guarded only by the root
directory existing), the video write into positives fails, and the
request answers 500 with the structured failure, leaving the
filesystem untouched (no repair of the missing sub-layout) and
performing no side effects. -/
theorem uploadVideo_missing_positives_500 (home : FPath) (decode : String → List Nat)
    (conv : ProcRun) (fn fd dn : String) (fs : FS)
    (hfn : fn ≠ "") (hfd : fd ≠ "") (hdn : dn ≠ "")
    (hds : existsSync fs (getPareidoliaFolderPath home ++ ["datasets"] ++ [dn]) = true)
    (hpos : existsSync fs
      (getPareidoliaFolderPath home ++ ["datasets"] ++ [dn] ++ ["positives"]) = false) :
    postUploadVideo home decode conv (UploadReq.mk (some fn) (some fd) (some dn)) fs =
      (UploadResp.serverError false "Failed to process video upload"
        "ENOENT: no such file or directory", fs, []) ∧
    (UploadResp.serverError false "Failed to process video upload"
      "ENOENT: no such file or directory").status = 500 := by
  refine ⟨?_, rfl⟩
  have h1 : falsy (some fn) = false := by simp [falsy, hfn]
  have h2 : falsy (some fd) = false := by simp [falsy, hfd]
  have h3 : falsy (some dn) = false := by simp [falsy, hdn]
  have hdrop : (getPareidoliaFolderPath home ++ ["datasets"] ++ [dn] ++ ["positives"] ++
      [fn]).dropLast = getPareidoliaFolderPath home ++ ["datasets"] ++ [dn] ++ ["positives"] := by
    rw [List.dropLast_concat]
  have hwrite : writeFileSync fs (getPareidoliaFolderPath home ++ ["datasets"] ++ [dn] ++
      ["positives"] ++ [fn]) (decode fd) = Except.error "ENOENT: no such file or directory" := by
    rw [writeFileSync, hdrop, statIsDirectory, lookupEntry_eq_none hpos]
    rfl
  simp only [postUploadVideo, h1, h2, h3, Bool.false_eq_true, if_false, Option.getD_some,
    hds, Bool.not_true, hwrite]

/-- Witness for C10 at a concrete store holding the dataset root
without its positives subdirectory. -/
theorem uploadVideo_missing_positives_500_witness :
    postUploadVideo [] (fun _ => [0, 1]) (ProcRun.mk (ProcEvent.closed 0) "" "" "t0" 0)
      (UploadReq.mk (some "v.mp4") (some "QUJD") (some "cats"))
      [⟨["Documents", "PareidoliaApp", "datasets", "cats"], FKind.dir⟩] =
      (UploadResp.serverError false "Failed to process video upload"
        "ENOENT: no such file or directory",
       [⟨["Documents", "PareidoliaApp", "datasets", "cats"], FKind.dir⟩], []) :=
  (uploadVideo_missing_positives_500 [] (fun _ => [0, 1])
    (ProcRun.mk (ProcEvent.closed 0) "" "" "t0" 0) "v.mp4" "QUJD" "cats"
    [⟨["Documents", "PareidoliaApp", "datasets", "cats"], FKind.dir⟩]
    (by decide) (by decide) (by decide) (by rfl) (by rfl)).1

/-- C2: on a well-formed all-directories store, an upload with all
three fields present to a dataset whose root directory does not exist
creates the dataset directory, writes the decoded video into its
positives subdirectory, runs the conversion, deletes the video file,
and answers 201 with the success flag, file name, dataset name and
decoded size — for every conversion outcome, so a conversion failure
does not change the status.  The hypothesis that the video path is
absent reflects that in a real store nothing lies beneath a dataset
root that does not exist. -/
theorem uploadVideo_new_dataset_upload (home : FPath) (decode : String → List Nat)
    (conv : ProcRun) (fn fd dn : String) (fs : FS)
    (hfn : fn ≠ "") (hfd : fd ≠ "") (hdn : dn ≠ "")
    (hd : ∀ e ∈ fs, e.kind = FKind.dir)
    (hds : existsSync fs (getPareidoliaFolderPath home ++ ["datasets"] ++ [dn]) = false)
    (hvid : existsSync fs (getPareidoliaFolderPath home ++ ["datasets"] ++ [dn] ++
      ["positives"] ++ [fn]) = false) :
    ∃ fs1,
      postUploadVideo home decode conv (UploadReq.mk (some fn) (some fd) (some dn)) fs =
        (UploadResp.created true fn dn (decode fd).length, fs1,
         [UploadEvent.createdDataset dn,
          UploadEvent.wroteFile (getPareidoliaFolderPath home ++ ["datasets"] ++ [dn] ++
            ["positives"] ++ [fn]) (decode fd),
          UploadEvent.ranConversion "py/extract_images.py"
            [pathToString (getPareidoliaFolderPath home ++ ["datasets"] ++ [dn] ++
              ["positives"] ++ [fn]),
             pathToString (getPareidoliaFolderPath home ++ ["datasets"] ++ [dn] ++
              ["positives"])],
          UploadEvent.deletedFile (getPareidoliaFolderPath home ++ ["datasets"] ++ [dn] ++
            ["positives"] ++ [fn])]) ∧
      statIsDirectory fs1 (getPareidoliaFolderPath home ++ ["datasets"] ++ [dn]) = true ∧
      statIsDirectory fs1 (getPareidoliaFolderPath home ++ ["datasets"] ++ [dn] ++
        ["positives"]) = true ∧
      existsSync fs1 (getPareidoliaFolderPath home ++ ["datasets"] ++ [dn] ++
        ["positives"] ++ [fn]) = false ∧
      (∀ e, e ∈ fs → e ∈ fs1) ∧
      (UploadResp.created true fn dn (decode fd).length).status = 201 := by
  rcases createDatasetFolder_spec home dn fs hd with
    ⟨fs1, hrun, hmono, hnew, hd1, hx1, hx2, hx3, hx4, hx5, hx6, hwf1⟩
  have hvlen : (getPareidoliaFolderPath home ++ ["datasets"] ++ [dn] ++ ["positives"] ++
      [fn]).length = home.length + 6 := by
    simp [getPareidoliaFolderPath, getDocumentsPath]
  have hv1 : existsSync fs1 (getPareidoliaFolderPath home ++ ["datasets"] ++ [dn] ++
      ["positives"] ++ [fn]) = false := by
    by_contra hc
    have hc2 : existsSync fs1 (getPareidoliaFolderPath home ++ ["datasets"] ++ [dn] ++
        ["positives"] ++ [fn]) = true := by simpa using hc
    rcases existsSync_eq_true.mp hc2 with ⟨e, he, hep⟩
    rcases hnew e he with hin | ⟨-, hlen⟩
    · exact absurd hep (existsSync_eq_false.mp hvid e hin)
    · rw [hep, hvlen] at hlen
      omega
  have hlook1 : lookupEntry fs1 (getPareidoliaFolderPath home ++ ["datasets"] ++ [dn] ++
      ["positives"] ++ [fn]) = none := lookupEntry_eq_none hv1
  have hsd5 : statIsDirectory fs1 (getPareidoliaFolderPath home ++ ["datasets"] ++ [dn] ++
      ["positives"]) = true := statIsDirectory_of_dirs hd1 hx5
  have hdrop : (getPareidoliaFolderPath home ++ ["datasets"] ++ [dn] ++ ["positives"] ++
      [fn]).dropLast = getPareidoliaFolderPath home ++ ["datasets"] ++ [dn] ++ ["positives"] := by
    rw [List.dropLast_concat]
  have hwrite : writeFileSync fs1 (getPareidoliaFolderPath home ++ ["datasets"] ++ [dn] ++
      ["positives"] ++ [fn]) (decode fd) =
      Except.ok (fs1 ++ [(⟨getPareidoliaFolderPath home ++ ["datasets"] ++ [dn] ++
        ["positives"] ++ [fn], FKind.file (decode fd)⟩ : FSEntry)]) := by
    rw [writeFileSync, hdrop]
    simp only [hsd5, if_true, hlook1]
  have hfind : lookupEntry (fs1 ++ [(⟨getPareidoliaFolderPath home ++ ["datasets"] ++ [dn] ++
      ["positives"] ++ [fn], FKind.file (decode fd)⟩ : FSEntry)])
      (getPareidoliaFolderPath home ++ ["datasets"] ++ [dn] ++ ["positives"] ++ [fn]) =
      some (⟨getPareidoliaFolderPath home ++ ["datasets"] ++ [dn] ++ ["positives"] ++ [fn],
        FKind.file (decode fd)⟩ : FSEntry) := by
    rw [lookupEntry, List.find?_append]
    rw [lookupEntry] at hlook1
    rw [hlook1]
    simp
  have hfilter : (fs1 ++ [(⟨getPareidoliaFolderPath home ++ ["datasets"] ++ [dn] ++
      ["positives"] ++ [fn], FKind.file (decode fd)⟩ : FSEntry)]).filter
      (fun e2 => !(e2.path == getPareidoliaFolderPath home ++ ["datasets"] ++ [dn] ++
        ["positives"] ++ [fn])) = fs1 := by
    rw [List.filter_append]
    have ha : fs1.filter (fun e2 => !(e2.path == getPareidoliaFolderPath home ++ ["datasets"] ++
        [dn] ++ ["positives"] ++ [fn])) = fs1 := by
      rw [List.filter_eq_self]
      intro e he
      have hne := existsSync_eq_false.mp hv1 e he
      simpa using hne
    rw [ha]
    simp
  have hunlink : unlinkSync (fs1 ++ [(⟨getPareidoliaFolderPath home ++ ["datasets"] ++ [dn] ++
      ["positives"] ++ [fn], FKind.file (decode fd)⟩ : FSEntry)])
      (getPareidoliaFolderPath home ++ ["datasets"] ++ [dn] ++ ["positives"] ++ [fn]) =
      Except.ok fs1 := by
    rw [unlinkSync, hfind]
    simp only [FKind.isDir, Bool.false_eq_true, if_false, hfilter]
  have h1 : falsy (some fn) = false := by simp [falsy, hfn]
  have h2 : falsy (some fd) = false := by simp [falsy, hfd]
  have h3 : falsy (some dn) = false := by simp [falsy, hdn]
  refine ⟨fs1, ?_, statIsDirectory_of_dirs hd1 hx4, hsd5, hv1, hmono, rfl⟩
  simp only [postUploadVideo, h1, h2, h3, Bool.false_eq_true, if_false, Option.getD_some,
    hds, Bool.not_false, if_true, hrun, hwrite, hunlink]
  rfl

/-- Witness for C2 at an empty store, arbitrary conversion outcome. -/
theorem uploadVideo_new_dataset_upload_witness :
    (postUploadVideo [] (fun _ => [0, 1]) (ProcRun.mk (ProcEvent.closed 1) "" "fail" "t0" 0)
      (UploadReq.mk (some "v.mp4") (some "QUJD") (some "cats")) []).1 =
      UploadResp.created true "v.mp4" "cats" 2 := by
  obtain ⟨fs1, heq, -, -, -, -, -⟩ := uploadVideo_new_dataset_upload [] (fun _ => [0, 1])
    (ProcRun.mk (ProcEvent.closed 1) "" "fail" "t0" 0) "v.mp4" "QUJD" "cats" []
    (by decide) (by decide) (by decide) (by simp) (by rfl) (by rfl)
  rw [heq]
  rfl

end Pareidolia
